import Mathlib

/-!
Verification of the message-routing core of `fastapi-ws-router`.

The development shallowly embeds the `WSRouter` class of
`src/fastapi_ws_router/router.py` and the route classes of
`src/fastapi_ws_router/route.py` (plus the prototype variant in `main.py`
where noted).  Handlers, hooks and the connection object are represented by
identifiers; the observable behaviour of one dispatch is a list of events.
The external schema-validation library (pydantic) is an out-of-scope
collaborator; its discriminated-union contract is modelled from the spec
(sections 4.1 and 6).
-/

namespace WS

/-- A field value inside a parsed JSON object message. -/
inductive Value where
  | str : String → Value
  | int : Int → Value
deriving DecidableEq

/-- A declared field of a pydantic message model: a literal string tag
(`Literal["user"]`), a string field, or an integer field. -/
inductive FieldSpec where
  | lit : String → FieldSpec
  | str : FieldSpec
  | int : FieldSpec
deriving DecidableEq

/-- A message schema: the identity of the pydantic model class (`sid`)
together with its declared required fields. -/
structure Schema where
  sid : Nat
  fields : List (String × FieldSpec)
deriving DecidableEq

/-- A parsed JSON object: an association list of field name to value. -/
abbrev Obj := List (String × Value)

/-- A raw incoming text frame: the raw text plus its parse as a JSON object
(`none` when the text is not a JSON object at all). -/
structure Raw where
  text : String
  parsed : Option Obj
deriving DecidableEq

/-- Look up a field of a parsed JSON object. -/
def lookupField (o : Obj) (k : String) : Option Value :=
  (o.find? (fun p => p.1 = k)).map (fun p => p.2)

/-- Whether a concrete value satisfies a declared field. -/
def FieldSpec.accepts : FieldSpec → Value → Bool
  | .lit v, .str s => v = s
  | .str, .str _ => true
  | .int, .int _ => true
  | _, _ => false

/-- Plain (single-type) structural validation of an object against one
schema: every declared field is present and accepted; extra fields are
ignored, as in the external validation library. -/
def validatesAgainst (o : Obj) (s : Schema) : Bool :=
  s.fields.all (fun p =>
    match lookupField o p.1 with
    | some v => p.2.accepts v
    | none => false)

/-- The discriminator tag value a schema declares at field name `d`:
the literal of that field, when the schema declares one. -/
def Schema.tagAt (s : Schema) (d : String) : Option String :=
  match s.fields.find? (fun p => p.1 = d) with
  | some (_, .lit v) => some v
  | _ => none

/-- Structured validation error raised by the validation collaborator. -/
inductive VError where
  | jsonInvalid
  | missingDiscriminator (d : String)
  | tagNotString (d : String)
  | unknownTag (t : String)
  | fieldMismatch (sid : Nat)
  | noVariantMatched
deriving DecidableEq

/-- The compiled adapter shape produced by `WSRouter._build_adapter`:
either a plain single type (one registered schema) or a union of the
registered schemas with the configured discriminator field name. -/
inductive Adapter where
  | single : Schema → Adapter
  | union : List Schema → Option String → Adapter
deriving DecidableEq

/-- A validated typed value: the class of the winning variant plus the
validated payload. -/
structure Validated where
  cls : Nat
  obj : Obj
deriving DecidableEq

/-- Modelled from the spec: single-type validation contract of the external
schema-validation library (section 4.1) — plain structural validation, no
discriminated-union tag is required. -/
def validateSingle (s : Schema) (r : Raw) : Except VError Validated :=
  match r.parsed with
  | none => .error .jsonInvalid
  | some o =>
      if validatesAgainst o s then .ok ⟨s.sid, o⟩
      else .error (.fieldMismatch s.sid)

/-- Modelled from the spec: discriminated-union validation contract of the
external schema-validation library (sections 4.1 and 6).  With a
discriminator field name the tag must be present, be a string and select a
registered variant, which then validates the payload; with no discriminator
the variants are tried in registration order. -/
def validateUnion (ss : List Schema) (disc : Option String) (r : Raw) :
    Except VError Validated :=
  match r.parsed with
  | none => .error .jsonInvalid
  | some o =>
      match disc with
      | some d =>
          match lookupField o d with
          | none => .error (.missingDiscriminator d)
          | some (.int _) => .error (.tagNotString d)
          | some (.str t) =>
              match ss.find? (fun s => s.tagAt d = some t) with
              | none => .error (.unknownTag t)
              | some s =>
                  if validatesAgainst o s then .ok ⟨s.sid, o⟩
                  else .error (.fieldMismatch s.sid)
      | none =>
          match ss.find? (fun s => validatesAgainst o s) with
          | some s => .ok ⟨s.sid, o⟩
          | none => .error .noVariantMatched

/-- `TypeAdapter.validate_json` on the compiled adapter shape. -/
def Adapter.validate : Adapter → Raw → Except VError Validated
  | .single s, r => validateSingle s r
  | .union ss d, r => validateUnion ss d r

/-- A fault passed to the fallback hook (the `error` argument). -/
inductive Fault where
  | validation : VError → Fault
  | runtime : String → Fault
  | keyError : String → Fault
deriving DecidableEq

/-- An action performed directly on the websocket connection object by a
default hook body. -/
inductive WSAction where
  | accept
  | close
  | sendText : String → WSAction
deriving DecidableEq

/-- Body of the default `WSRouter._on_connect`: `await websocket.accept()`. -/
def defaultOnConnectBody : List WSAction := [WSAction.accept]

/-- Body of the default `WSRouter._on_disconnect`: a docstring only, it
performs nothing. -/
def defaultOnDisconnectBody : List WSAction := []

/-- Body of the default `WSRouter._fallback`: a docstring only, it performs
nothing. -/
def defaultFallbackBody : List WSAction := []

/-- Observable events of serving one connection.  User hooks and handlers
are opaque; the event records which one was invoked and with what. -/
inductive Event where
  | accept
  | userOnConnect (f : Nat)
  | handlerCall (h : Nat) (v : Validated)
  | fallbackCall (hook : Option Nat) (msg : Option Raw) (err : Option Fault)
  | onDisconnectCall (hook : Option Nat) (code : Nat) (reason : String)
  | customDispatch (f : Nat) (msg : Raw)
  | close
deriving DecidableEq

/-- Result of one dispatch: either a normally returning trace or a trace cut
short by an uncaught `KeyError` (mapping lookup on an unbound class), which
propagates out of the dispatch. -/
inductive DispatchOutcome where
  | ok (events : List Event)
  | fatal (events : List Event) (missingCls : Nat)
deriving DecidableEq

/-- The events a dispatch produced, whether or not it ended fatally. -/
def DispatchOutcome.events : DispatchOutcome → List Event
  | .ok evs => evs
  | .fatal evs _ => evs

/-- A documentation-only sub-route appended by `WSRouter.receive`
(an instance of `WSRoute` from `route.py`). -/
structure WSRoute where
  path : String
  endpoint : Nat
  name : String
  responseModel : Option Nat
deriving DecidableEq

/-- Route matching verdict of the host routing layer (`starlette` `Match`). -/
inductive RouteMatch where
  | noMatch
  | partialMatch
  | fullMatch
deriving DecidableEq

/-- Live traffic shape presented to route matching (an ASGI scope),
abstracted to its key/value entries. -/
abbrev Scope := List (String × String)

/-- `WSRoute.matches` from `route.py`: always `Match.NONE` with an empty
scope, whatever the incoming scope is. -/
def WSRoute.matches (_ : WSRoute) (_ : Scope) : RouteMatch × Scope :=
  (RouteMatch.noMatch, [])

/-- An entry of the routes list: the main entry route added by the
constructor, or a documentation-only `WSRoute`. -/
inductive RouteEntry where
  | main (name : Option String)
  | doc (r : WSRoute)
deriving DecidableEq

/-- The `WSRouter` configuration state of `router.py`: discriminator field
name, lazily compiled adapter cache, handler mapping (class to handler, in
insertion order), routes list, read mode, hook override slots (`none` means
the default hook body is in effect) and the optional custom dispatcher. -/
structure Router where
  discriminator : Option String
  adapter : Option Adapter
  mapping : List (Schema × Nat)
  routes : List RouteEntry
  asText : Bool
  hookOnConnect : Option Nat
  hookOnDisconnect : Option Nat
  hookFallback : Option Nat
  customDispatcher : Option Nat
  dependencies : List Nat
  tags : List String
deriving DecidableEq

/-- `WSRouter.__init__`: no adapter yet, empty mapping, the routes list
holds only the main entry route, all hook slots at their defaults. -/
def mkRouter (discriminator : Option String) (name : Option String)
    (customDispatcher : Option Nat) (asText : Bool)
    (dependencies : List Nat) (tags : List String) : Router :=
  { discriminator := discriminator
    adapter := none
    mapping := []
    routes := [RouteEntry.main name]
    asText := asText
    hookOnConnect := none
    hookOnDisconnect := none
    hookFallback := none
    customDispatcher := customDispatcher
    dependencies := dependencies
    tags := tags }

/-- Insertion into the handler mapping with Python `dict` semantics: an
existing key keeps its position and gets the new value, a new key is
appended. -/
def insertMapping : List (Schema × Nat) → Schema → Nat → List (Schema × Nat)
  | [], s, h => [(s, h)]
  | (s0, h0) :: rest, s, h =>
      if s0 = s then (s0, h) :: rest
      else (s0, h0) :: insertMapping rest s h

/-- The documentation-only route descriptor built inside `WSRouter.receive`:
path is the caller-supplied one, or derived from the handler name. -/
def docRoute (callbacks : Option Nat) (pathArg : Option String)
    (func : Nat) (funcName : String) : WSRoute :=
  { path :=
      match pathArg with
      | some p => p
      | none => " (" ++ funcName ++ ")"
    endpoint := func
    name := funcName
    responseModel := callbacks }

/-- `WSRouter.receive`: bind `func` as the handler of `model` in the mapping
and append one documentation-only route. -/
def Router.receive (st : Router) (model : Schema) (callbacks : Option Nat)
    (pathArg : Option String) (func : Nat) (funcName : String) : Router :=
  { st with
    mapping := insertMapping st.mapping model func
    routes := st.routes ++ [RouteEntry.doc (docRoute callbacks pathArg func funcName)] }

/-- `WSRouter.on_connect`: replace the on-connect hook slot. -/
def Router.on_connect (st : Router) (f : Nat) : Router :=
  { st with hookOnConnect := some f }

/-- `WSRouter.on_disconnect`: replace the on-disconnect hook slot. -/
def Router.on_disconnect (st : Router) (f : Nat) : Router :=
  { st with hookOnDisconnect := some f }

/-- `WSRouter.fallback`: replace the fallback hook slot. -/
def Router.fallback (st : Router) (f : Nat) : Router :=
  { st with hookFallback := some f }

/-- `WSRouter._build_adapter`: `None` on an empty mapping; the plain single
class when exactly one schema is registered; otherwise the union of the
registered classes under the configured discriminator. -/
def Router.buildAdapter (st : Router) : Option Adapter :=
  match st.mapping with
  | [] => none
  | [(s, _)] => some (Adapter.single s)
  | _ => some (Adapter.union (st.mapping.map (fun p => p.1)) st.discriminator)

/-- The event of invoking the current on-connect hook: the default accepts
the connection, an override invokes the user hook. -/
def Router.connectEvent (st : Router) : Event :=
  match st.hookOnConnect with
  | none => Event.accept
  | some f => Event.userOnConnect f

/-- `WSRouter._dispatcher`, the default dispatch strategy: no adapter means
fallback with no error; a validation error means fallback with the raw
message and the error; a validated value is looked up in the mapping and
its handler invoked — an absent class makes the `mapping[...]` lookup raise
an uncaught `KeyError`. -/
def Router.defaultDispatch (st : Router) (mapping : List (Schema × Nat))
    (msg : Raw) : DispatchOutcome :=
  match st.adapter with
  | none => .ok [Event.fallbackCall st.hookFallback (some msg) none]
  | some ad =>
      match ad.validate msg with
      | .error e =>
          .ok [Event.fallbackCall st.hookFallback (some msg) (some (Fault.validation e))]
      | .ok v =>
          match mapping.find? (fun p => p.1.sid = v.cls) with
          | some p => .ok [Event.handlerCall p.2 v]
          | none => .fatal [] v.cls

/-- Result of one blocking read on the connection. -/
inductive ReadResult where
  | msg (r : Raw)
  | disconnect (code : Nat) (reason : String)
  | runtimeErr (s : String)
deriving DecidableEq

/-- `WSRouter.handler`, the per-connection endpoint of `router.py`: compile
the adapter if absent, run the on-connect hook, then perform ONE read — a
disconnect goes to the on-disconnect hook, a runtime fault goes to the
fallback hook with no message, a message goes to the configured dispatcher.
The source contains no read loop: only the head of the read script is ever
consumed, everything after it is ignored.  Returns the trace and the
updated state. -/
def Router.handlerRun (st : Router) (reads : List ReadResult) :
    DispatchOutcome × Router :=
  let st1 :=
    match st.adapter with
    | none => { st with adapter := st.buildAdapter }
    | some _ => st
  let cev := st1.connectEvent
  match reads with
  | [] => (.ok [cev], st1)
  | r :: _ =>
      match r with
      | .disconnect code reason =>
          (.ok [cev, Event.onDisconnectCall st1.hookOnDisconnect code reason], st1)
      | .runtimeErr e =>
          (.ok [cev, Event.fallbackCall st1.hookFallback none (some (Fault.runtime e))], st1)
      | .msg m =>
          match st1.customDispatcher with
          | some f => (.ok [cev, Event.customDispatch f m], st1)
          | none =>
              match st1.defaultDispatch st1.mapping m with
              | .ok evs => (.ok (cev :: evs), st1)
              | .fatal evs c => (.fatal (cev :: evs) c, st1)

/-- Count of typed-handler invocations in a trace. -/
def countHandlerCalls (evs : List Event) : Nat :=
  evs.countP (fun e =>
    match e with
    | .handlerCall _ _ => true
    | _ => false)

/-- The hook-registration decorators exposed by `WSRouter` in
`fastapi_ws_router/router.py`. -/
def wsRouterHookContracts : List String :=
  ["on_connect", "on_disconnect", "fallback"]

/-- The hook-registration decorators exposed by the `WSRouter` prototype in
`main.py`. -/
def mainRouterHookContracts : List String :=
  ["on_connect", "fallback", "fallback_bytes"]

/-- The hook slots of the `main.py` prototype `WSRouter` relevant to its
binary fallback. -/
structure MainRouter where
  hookOnConnect : Option Nat
  hookFallback : Option Nat
  hookFallbackBytes : Option Nat
deriving DecidableEq

/-- `main.py` `WSRouter.fallback`: replace the fallback hook slot. -/
def MainRouter.fallback (st : MainRouter) (f : Nat) : MainRouter :=
  { st with hookFallback := some f }

/-- `main.py` `WSRouter.fallback_bytes`: replace the binary-fallback slot. -/
def MainRouter.fallback_bytes (st : MainRouter) (f : Nat) : MainRouter :=
  { st with hookFallbackBytes := some f }

/-- `main.py` default `WSRouter._fallback_bytes`: forward to the current
fallback hook with no message and a synthetic `KeyError("No text
received")`. -/
def MainRouter.fallbackBytesDefaultRun (st : MainRouter) : Event :=
  Event.fallbackCall st.hookFallback none (some (Fault.keyError "No text received"))

/-- One handler registration, for iterating `WSRouter.receive`. -/
structure Registration where
  model : Schema
  callbacks : Option Nat
  pathArg : Option String
  func : Nat
  funcName : String
deriving DecidableEq

/-- Fold a list of registrations over a router, left to right. -/
def applyRegs : Router → List Registration → Router
  | st, [] => st
  | st, r :: rs => applyRegs (st.receive r.model r.callbacks r.pathArg r.func r.funcName) rs

/-! Concrete fixtures, taken from the message models and payloads of the
test suite (`tests/test_ws.py`). -/

/-- The `UserMessage` model: `message_type: Literal["user"]`, `user_id: int`,
`user_name: str`. -/
def userSchema : Schema :=
  ⟨1, [("message_type", FieldSpec.lit "user"), ("user_id", FieldSpec.int),
       ("user_name", FieldSpec.str)]⟩

/-- The `PostMessage` model: `message_type: Literal["post"]`, `post_id: int`,
`post_content: str`. -/
def postSchema : Schema :=
  ⟨2, [("message_type", FieldSpec.lit "post"), ("post_id", FieldSpec.int),
       ("post_content", FieldSpec.str)]⟩

/-- The field-less `Message` model of `test_custom_dispatcher`. -/
def bareSchema : Schema := ⟨3, []⟩

/-- Payload of a valid `user` message. -/
def userObj : Obj :=
  [("message_type", Value.str "user"), ("user_id", Value.int 1),
   ("user_name", Value.str "John")]

/-- A valid `user` text frame. -/
def userRaw : Raw := ⟨"user message json", some userObj⟩

/-- A well-formed frame that fails schema validation: only an unknown
`message_type` value, as in `test_fallback`. -/
def badRaw : Raw := ⟨"invalid message json", some [("message_type", Value.str "invalid")]⟩

/-- The empty-string frame of `test_empty_mapping`. -/
def emptyRaw : Raw := ⟨"", none⟩

/-- A tagless frame accepted by the bare schema. -/
def plainRaw : Raw := ⟨"plain json", some [("a", Value.str "1234")]⟩

/-- The starlette runtime-fault text seen in `test_on_connect_error`. -/
def wsNotConnectedText : String :=
  "WebSocket is not connected. Need to call \"accept\" first."

/-- Router of the `test_multiple_messages` scenario: default construction,
one handler (id 10) bound to the user schema. -/
def c2Router : Router :=
  (mkRouter none none none true [] []).receive userSchema none none 10 "handler1"

/-- The three consecutive valid user messages of `test_multiple_messages`. -/
def threeUserReads : List ReadResult :=
  [ReadResult.msg userRaw, ReadResult.msg userRaw, ReadResult.msg userRaw]

/-- Router with one user-schema handler (id 10) and a user fallback hook
(id 99), as in `test_fallback`. -/
def c4Router : Router :=
  ((mkRouter none none none true [] []).receive userSchema none none 10 "handler1").fallback 99

/-- Router whose adapter was compiled for the user schema while the mapping
is empty: the validated class has no handler binding. -/
def c3Router : Router :=
  { mkRouter none none none true [] [] with adapter := some (Adapter.single userSchema) }

/-- Router with a user on-connect hook (id 5) that neither accepts nor
closes, as in `test_on_connect_error`. -/
def c7Router : Router :=
  (mkRouter none none none true [] []).on_connect 5

/-- Two-schema router of the dispatch scenario: discriminator
`message_type`, user handler 10, post handler 20. -/
def c1Router : Router :=
  ((mkRouter (some "message_type") none none true [] []).receive
      userSchema none none 10 "get_user_message").receive
    postSchema none none 20 "get_post_message"

/-- `c1Router` after its adapter was compiled on first use. -/
def c1Ready : Router :=
  { c1Router with adapter := c1Router.buildAdapter }

/-- The compiled adapter of `c1Ready`. -/
def c1Adapter : Adapter :=
  Adapter.union [userSchema, postSchema] (some "message_type")

/-- Single-schema router constructed WITH a discriminator field name, bare
schema bound to handler 30. -/
def c8Router : Router :=
  (mkRouter (some "message_type") none none true [] []).receive bareSchema none none 30 "handler"

/-- Base router for the iterated-registration scenario. -/
def c10Base : Router := mkRouter none none none true [] []

/-- Two registrations of the same schema with different handlers. -/
def c10Regs : List Registration :=
  [⟨userSchema, none, none, 10, "h1"⟩, ⟨userSchema, none, none, 11, "h2"⟩]

/-! Helper lemmas. -/

/-- With pairwise-distinct class identities, `find?` by class returns the
member binding. -/
theorem find_eq_of_nodup_sids {m : List (Schema × Nat)} {s : Schema} {hdl : Nat}
    (hnd : (m.map (fun p => p.1.sid)).Nodup)
    (hmem : (s, hdl) ∈ m) :
    m.find? (fun p => p.1.sid = s.sid) = some (s, hdl) := by
  induction m with
  | nil => cases hmem
  | cons a t ih =>
      rw [List.map_cons, List.nodup_cons] at hnd
      rcases List.mem_cons.mp hmem with heq | ht
      · subst heq
        simp
      · have hne : a.1.sid ≠ s.sid := by
          intro h
          exact hnd.1 (h ▸ List.mem_map.mpr ⟨(s, hdl), ht, rfl⟩)
        rw [List.find?_cons_of_neg _ (by simpa using hne)]
        exact ih hnd.2 ht

/-- Keys of `insertMapping` are the old keys plus the inserted schema. -/
theorem mem_insertMapping_keys {m : List (Schema × Nat)} {s x : Schema} {h : Nat} :
    x ∈ (insertMapping m s h).map Prod.fst ↔ x ∈ m.map Prod.fst ∨ x = s := by
  induction m with
  | nil => simp [insertMapping]
  | cons a t ih =>
      obtain ⟨a1, a2⟩ := a
      by_cases he : a1 = s
      · subst he
        rw [insertMapping, if_pos rfl]
        simp only [List.map_cons, List.mem_cons]
        tauto
      · rw [insertMapping, if_neg he]
        simp only [List.map_cons, List.mem_cons]
        rw [ih]
        tauto

/-- `insertMapping` keeps the key list duplicate-free. -/
theorem insertMapping_keys_nodup {m : List (Schema × Nat)} {s : Schema} {h : Nat}
    (hnd : (m.map Prod.fst).Nodup) :
    ((insertMapping m s h).map Prod.fst).Nodup := by
  induction m with
  | nil => simp [insertMapping]
  | cons a t ih =>
      obtain ⟨a1, a2⟩ := a
      rw [List.map_cons, List.nodup_cons] at hnd
      by_cases he : a1 = s
      · subst he
        rw [insertMapping, if_pos rfl]
        rw [List.map_cons, List.nodup_cons]
        exact ⟨hnd.1, hnd.2⟩
      · rw [insertMapping, if_neg he]
        rw [List.map_cons, List.nodup_cons]
        refine ⟨fun hmem => ?_, ih hnd.2⟩
        rcases mem_insertMapping_keys.mp hmem with hin | rfl
        · exact hnd.1 hin
        · exact he rfl

/-- Re-registration semantics of `insertMapping`: looking the inserted
schema up yields the new handler. -/
theorem insertMapping_find_self (m : List (Schema × Nat)) (s : Schema) (h : Nat) :
    (insertMapping m s h).find? (fun p => p.1 = s) = some (s, h) := by
  induction m with
  | nil => simp [insertMapping]
  | cons a t ih =>
      obtain ⟨a1, a2⟩ := a
      by_cases he : a1 = s
      · subst he
        rw [insertMapping, if_pos rfl]
        simp
      · rw [insertMapping, if_neg he]
        rw [List.find?_cons_of_neg _ (by simpa using he)]
        exact ih

/-- Route growth of the registration fold. -/
theorem applyRegs_routes_length (regs : List Registration) (st : Router) :
    (applyRegs st regs).routes.length = st.routes.length + regs.length := by
  induction regs generalizing st with
  | nil => simp [applyRegs]
  | cons r rs ih =>
      rw [applyRegs, ih]
      simp [Router.receive]
      omega

/-- The registration fold keeps mapping keys duplicate-free. -/
theorem applyRegs_keys_nodup (regs : List Registration) (st : Router)
    (hnd : (st.mapping.map Prod.fst).Nodup) :
    ((applyRegs st regs).mapping.map Prod.fst).Nodup := by
  induction regs generalizing st with
  | nil => simpa [applyRegs] using hnd
  | cons r rs ih =>
      rw [applyRegs]
      exact ih _ (insertMapping_keys_nodup hnd)

/-- Mapping keys after the registration fold: old keys plus the registered
models. -/
theorem applyRegs_keys_mem (regs : List Registration) (st : Router) (x : Schema) :
    x ∈ (applyRegs st regs).mapping.map Prod.fst ↔
      x ∈ st.mapping.map Prod.fst ∨ x ∈ regs.map Registration.model := by
  induction regs generalizing st with
  | nil => simp [applyRegs]
  | cons r rs ih =>
      rw [applyRegs, ih]
      simp only [Router.receive]
      rw [mem_insertMapping_keys]
      simp only [List.map_cons, List.mem_cons]
      tauto

/-! Claim theorems. -/

/-- C1: with pairwise-distinct discriminator tags and distinct class
identities, a raw message that the compiled adapter validates as the
variant tagged `T` makes the default dispatcher produce exactly one event:
the invocation of the handler bound to the schema tagged `T`, with the
validated typed value — no other handler and no fallback invocation. -/
theorem C1_unique_tag_dispatches_bound_handler (st : Router) (d T : String)
    (s : Schema) (hdl : Nat) (msg : Raw) (v : Validated) (ad : Adapter)
    (hdisc : st.discriminator = some d)
    (htags : st.mapping.Pairwise (fun p q => p.1.tagAt d ≠ q.1.tagAt d))
    (hnd : (st.mapping.map (fun p => p.1.sid)).Nodup)
    (hbuilt : st.adapter = st.buildAdapter)
    (had : st.adapter = some ad)
    (hmem : (s, hdl) ∈ st.mapping)
    (htag : s.tagAt d = some T)
    (hval : ad.validate msg = .ok v)
    (hcls : v.cls = s.sid) :
    st.defaultDispatch st.mapping msg = .ok [Event.handlerCall hdl v] := by
  simp only [Router.defaultDispatch, had, hval, hcls,
    find_eq_of_nodup_sids hnd hmem]

/-- C1 witness: the two-schema router of the test scenario delivers the
valid user message to the user handler only. -/
theorem C1_unique_tag_witness :
    userSchema.tagAt "message_type" = some "user" ∧
    c1Adapter.validate userRaw = .ok ⟨1, userObj⟩ ∧
    c1Ready.defaultDispatch c1Ready.mapping userRaw
      = .ok [Event.handlerCall 10 ⟨1, userObj⟩] :=
  ⟨rfl, rfl,
    C1_unique_tag_dispatches_bound_handler c1Ready "message_type" "user"
      userSchema 10 userRaw ⟨1, userObj⟩ c1Adapter rfl (by decide) (by decide)
      rfl rfl (by decide) rfl rfl rfl⟩

/-- C2: the code of `WSRouter.handler` contains no read loop — on the
three-consecutive-valid-user-messages connection of
`test_multiple_messages` the bound handler is invoked exactly once, not
three times, and the produced trace is identical to that of a
single-message connection. -/
theorem C2_single_read_no_loop :
    (c2Router.handlerRun threeUserReads).1
      = .ok [Event.accept, Event.handlerCall 10 ⟨1, userObj⟩] ∧
    countHandlerCalls ((c2Router.handlerRun threeUserReads).1.events) = 1 ∧
    (c2Router.handlerRun threeUserReads).1
      = (c2Router.handlerRun [ReadResult.msg userRaw]).1 :=
  ⟨rfl, rfl, rfl⟩

/-- C3: when the compiled adapter validates a message into a class that the
handler mapping does not contain, the default dispatcher ends in the
uncaught `KeyError` of `mapping[validated.__class__]`: a fatal outcome with
no fallback invocation and no handler invocation. -/
theorem C3_unbound_class_fatal (st : Router) (msg : Raw) (v : Validated)
    (ad : Adapter)
    (had : st.adapter = some ad)
    (hval : ad.validate msg = .ok v)
    (hmiss : st.mapping.find? (fun p => p.1.sid = v.cls) = none) :
    st.defaultDispatch st.mapping msg = .fatal [] v.cls := by
  simp only [Router.defaultDispatch, had, hval, hmiss]

/-- C3 witness: an adapter compiled for the user schema with an empty
mapping makes the dispatch of a valid user message fatal. -/
theorem C3_unbound_class_witness :
    c3Router.adapter = some (Adapter.single userSchema) ∧
    (Adapter.single userSchema).validate userRaw = .ok ⟨1, userObj⟩ ∧
    c3Router.defaultDispatch c3Router.mapping userRaw = .fatal [] 1 :=
  ⟨rfl, rfl,
    C3_unbound_class_fatal c3Router userRaw ⟨1, userObj⟩
      (Adapter.single userSchema) rfl rfl rfl⟩

/-- C4: on a malformed-then-valid two-message connection the fallback hook
does receive the original raw message and the structured validation error
and the error is not re-raised — but the handler has no read loop, so the
subsequent valid message is never read and no handler is ever invoked. -/
theorem C4_fallback_then_no_continuation :
    (c4Router.handlerRun [ReadResult.msg badRaw, ReadResult.msg userRaw]).1
      = .ok [Event.accept,
             Event.fallbackCall (some 99) (some badRaw)
               (some (Fault.validation (VError.fieldMismatch 1)))] ∧
    countHandlerCalls
      ((c4Router.handlerRun [ReadResult.msg badRaw, ReadResult.msg userRaw]).1.events) = 0 :=
  ⟨rfl, rfl⟩

/-- C5: with an empty handler mapping, serving any received message — the
empty string included — invokes the fallback hook with the original raw
message and no error, immediately after the connect hook; no validation is
attempted because no adapter exists. -/
theorem C5_empty_mapping_fallback (st : Router) (m : Raw)
    (rest : List ReadResult)
    (hmap : st.mapping = [])
    (had : st.adapter = none)
    (hcd : st.customDispatcher = none) :
    (st.handlerRun (ReadResult.msg m :: rest)).1
      = .ok [st.connectEvent, Event.fallbackCall st.hookFallback (some m) none] := by
  rw [Router.handlerRun]
  simp only [had, hcd, Router.buildAdapter, hmap, Router.defaultDispatch,
    Router.connectEvent]

/-- C5 witness: the default-constructed router routes the empty-string
frame to the fallback hook with the raw message and no error. -/
theorem C5_empty_mapping_witness :
    (mkRouter none none none true [] []).mapping = [] ∧
    ((mkRouter none none none true [] []).handlerRun [ReadResult.msg emptyRaw]).1
      = .ok [Event.accept, Event.fallbackCall none (some emptyRaw) none] :=
  ⟨rfl,
    C5_empty_mapping_fallback (mkRouter none none none true [] []) emptyRaw []
      rfl rfl rfl⟩

/-- C6 counterexample: `router.py` exposes three hook-registration
contracts, none of them a binary fallback, and the `main.py` prototype —
the only variant with a binary-fallback contract — lacks `on_disconnect`;
no registry exposes all four contracts of the claim. -/
theorem C6_three_hooks_counterexample :
    wsRouterHookContracts.length = 3 ∧
    "fallback_for_binary" ∉ wsRouterHookContracts ∧
    "fallback_bytes" ∉ wsRouterHookContracts ∧
    "on_disconnect" ∉ mainRouterHookContracts := by
  refine ⟨rfl, ?_, ?_, ?_⟩ <;> decide

/-- C6 amended: the package registry exposes `on_connect`, `on_disconnect`
and `fallback`, each replacing its hook slot; the default on-connect
accepts unconditionally and the default on-disconnect and fallback bodies
do nothing; the binary fallback exists only in the `main.py` prototype,
whose default forwards to the current fallback hook with a synthetic
`KeyError("No text received")`. -/
theorem C6_amended_hooks (st : Router) (mst : MainRouter) (f g h k : Nat)
    (d nm : Option String) (cd : Option Nat) (a : Bool)
    (dep : List Nat) (tg : List String) :
    (st.on_connect f).hookOnConnect = some f ∧
    (st.on_disconnect g).hookOnDisconnect = some g ∧
    (st.fallback h).hookFallback = some h ∧
    (mkRouter d nm cd a dep tg).connectEvent = Event.accept ∧
    defaultOnConnectBody = [WSAction.accept] ∧
    defaultOnDisconnectBody = [] ∧
    defaultFallbackBody = [] ∧
    (mst.fallback k).fallbackBytesDefaultRun
      = Event.fallbackCall (some k) none (some (Fault.keyError "No text received")) :=
  ⟨rfl, rfl, rfl, rfl, rfl, rfl, rfl, rfl⟩

/-- C7 counterexample: with an on-connect hook that neither accepts nor
closes, the runtime fault of the read is routed to the fallback hook and
not re-raised — but the produced trace contains no close action at all, so
no graceful close is attempted by the dispatch code. -/
theorem C7_no_close_counterexample :
    (c7Router.handlerRun [ReadResult.runtimeErr wsNotConnectedText]).1
      = .ok [Event.userOnConnect 5,
             Event.fallbackCall none none (some (Fault.runtime wsNotConnectedText))] ∧
    Event.close ∉
      ((c7Router.handlerRun [ReadResult.runtimeErr wsNotConnectedText]).1).events :=
  ⟨rfl, by decide⟩

/-- C7 amended: a runtime fault raised by the blocking read is routed to
the fallback hook with no message and the raw fault, is not re-raised (the
outcome is a normal return, not fatal), and the handler then returns
without itself attempting to close the connection — teardown is left to
the host framework. -/
theorem C7_runtime_fault_to_fallback (st : Router) (e : String)
    (rest : List ReadResult) :
    (st.handlerRun (ReadResult.runtimeErr e :: rest)).1
      = .ok [st.connectEvent,
             Event.fallbackCall st.hookFallback none (some (Fault.runtime e))] ∧
    Event.close ∉ ((st.handlerRun (ReadResult.runtimeErr e :: rest)).1).events := by
  have h1 : (st.handlerRun (ReadResult.runtimeErr e :: rest)).1
      = .ok [st.connectEvent,
             Event.fallbackCall st.hookFallback none (some (Fault.runtime e))] := by
    cases had : st.adapter with
    | none => simp [Router.handlerRun, had, Router.connectEvent]
    | some a => simp [Router.handlerRun, had, Router.connectEvent]
  refine ⟨h1, ?_⟩
  rw [h1]
  cases hc : st.hookOnConnect <;>
    simp [DispatchOutcome.events, Router.connectEvent, hc]

/-- C8: with exactly one registered schema the compiled adapter is the
plain single type — no discriminated union is built — and single-type
validation accepts a payload valid for that schema even though the router
was constructed with a discriminator field name and the payload carries no
discriminator tag at all. -/
theorem C8_single_schema_plain_validation (st : Router) (s : Schema)
    (hdl : Nat) (d : String) (o : Obj) (msg : Raw)
    (hmap : st.mapping = [(s, hdl)])
    (hdisc : st.discriminator = some d)
    (hparse : msg.parsed = some o)
    (hvalid : validatesAgainst o s = true)
    (hnotag : lookupField o d = none) :
    st.buildAdapter = some (Adapter.single s) ∧
    (Adapter.single s).validate msg = .ok ⟨s.sid, o⟩ := by
  constructor
  · simp only [Router.buildAdapter, hmap]
  · simp [Adapter.validate, validateSingle, hparse, hvalid]

/-- C8 witness: the bare schema bound alone in a router constructed with
discriminator `message_type` accepts a tagless payload. -/
theorem C8_single_schema_witness :
    c8Router.mapping = [(bareSchema, 30)] ∧
    lookupField [("a", Value.str "1234")] "message_type" = none ∧
    (c8Router.buildAdapter = some (Adapter.single bareSchema) ∧
      (Adapter.single bareSchema).validate plainRaw
        = .ok ⟨3, [("a", Value.str "1234")]⟩) :=
  ⟨rfl, rfl,
    C8_single_schema_plain_validation c8Router bareSchema 30 "message_type"
      [("a", Value.str "1234")] plainRaw rfl rfl rfl rfl rfl⟩

/-- C9: every handler registration appends exactly one documentation-only
route descriptor, and that descriptor reports no match against every
scope of live traffic. -/
theorem C9_doc_route_never_matches (st : Router) (model : Schema)
    (callbacks : Option Nat) (pathArg : Option String) (func : Nat)
    (funcName : String) (sc : Scope) :
    (st.receive model callbacks pathArg func funcName).routes
      = st.routes ++ [RouteEntry.doc (docRoute callbacks pathArg func funcName)] ∧
    (docRoute callbacks pathArg func funcName).matches sc
      = (RouteMatch.noMatch, []) :=
  ⟨rfl, rfl⟩

/-- C10: one `receive` call has exactly two effects — the mapping entry of
the schema is set to the new handler and one documentation-only route is
appended — while every other configuration field is unchanged;
re-registration overwrites the single mapping entry; and after a fold of
registrations the routes list has grown by their number while the mapping
keys are exactly the distinct registered schemas, without duplicates. -/
theorem C10_receive_effects (st : Router) (model : Schema) (cb : Option Nat)
    (pathArg : Option String) (func : Nat) (funcName : String)
    (regs : List Registration)
    (hnd : (st.mapping.map Prod.fst).Nodup) :
    ((st.receive model cb pathArg func funcName).mapping
        = insertMapping st.mapping model func ∧
      (st.receive model cb pathArg func funcName).routes
        = st.routes ++ [RouteEntry.doc (docRoute cb pathArg func funcName)] ∧
      (st.receive model cb pathArg func funcName).discriminator = st.discriminator ∧
      (st.receive model cb pathArg func funcName).adapter = st.adapter ∧
      (st.receive model cb pathArg func funcName).asText = st.asText ∧
      (st.receive model cb pathArg func funcName).hookOnConnect = st.hookOnConnect ∧
      (st.receive model cb pathArg func funcName).hookOnDisconnect = st.hookOnDisconnect ∧
      (st.receive model cb pathArg func funcName).hookFallback = st.hookFallback ∧
      (st.receive model cb pathArg func funcName).customDispatcher = st.customDispatcher ∧
      (st.receive model cb pathArg func funcName).dependencies = st.dependencies ∧
      (st.receive model cb pathArg func funcName).tags = st.tags) ∧
    (insertMapping st.mapping model func).find? (fun p => p.1 = model)
      = some (model, func) ∧
    ((applyRegs st regs).routes.length = st.routes.length + regs.length ∧
      ((applyRegs st regs).mapping.map Prod.fst).Nodup ∧
      ∀ x, x ∈ (applyRegs st regs).mapping.map Prod.fst ↔
        x ∈ st.mapping.map Prod.fst ∨ x ∈ regs.map Registration.model) :=
  ⟨⟨rfl, rfl, rfl, rfl, rfl, rfl, rfl, rfl, rfl, rfl, rfl⟩,
    insertMapping_find_self _ _ _,
    applyRegs_routes_length _ _,
    applyRegs_keys_nodup _ _ hnd,
    fun x => applyRegs_keys_mem _ _ _⟩

/-- C10 witness: registering the same schema twice grows the routes list by
two while the mapping keys stay duplicate-free (one entry). -/
theorem C10_receive_witness :
    (c10Base.mapping.map Prod.fst).Nodup ∧
    (applyRegs c10Base c10Regs).routes.length = c10Base.routes.length + 2 ∧
    ((applyRegs c10Base c10Regs).mapping.map Prod.fst).Nodup :=
  ⟨by decide,
    (C10_receive_effects c10Base userSchema none none 10 "h1" c10Regs
      (by decide)).2.2.1,
    (C10_receive_effects c10Base userSchema none none 10 "h1" c10Regs
      (by decide)).2.2.2.1⟩

end WS
